import Mathlib

/-!
Shallow embedding of the trust-check backend's Identity Resolution and
Trust Scoring Engine: the organization verification path
(`verification.service.ts`), the phone/person verification path
(`phone-verification.service.ts`), and the report creation / report
statistics operations (`reports.service.ts`).

Timestamps are modelled as integers (milliseconds since epoch), database
rows as Lean structures, and the external collaborators (the VAT registry
client and the phone-numbering library) as explicit inputs describing
their response for the call at hand.  Asynchronous methods become pure
functions; thrown exceptions become explicit outcome constructors.
-/

namespace TrustCheck

/-- A row of the `Report` table.  Optional foreign keys mirror the Prisma
schema: a report may point at a company (by `companyNip`), at a phone
number (by `phoneNumber`), and/or at a person (by `personId`). -/
structure Report where
  id : Nat
  rating : Int
  createdAt : Int
  reason : String
  comment : String
  phoneNumber : Option String := none
  companyNip : Option String := none
  personId : Option Nat := none
  reportedEmail : Option String := none
  facebookLink : Option String := none
  screenshotUrl : Option String := none
  screenshotPath : Option String := none
  bankAccount : Option String := none
  ipAddress : String := ""
  userId : Nat := 0
deriving DecidableEq

/-- A row of the `Company` table (`rawData` holds the opaque registry
payload stored by the upsert; `phones` the linked phone numbers). -/
structure Company where
  nip : String
  name : String
  statusVat : String
  trustScore : Int
  riskLevel : String
  updatedAt : Int
  phones : List String := []
  rawData : Option String := none
deriving DecidableEq

/-- Stable insertion of a report into a list sorted descending by
`createdAt`: the new element goes after every already-placed element
whose timestamp is greater than or equal to its own. -/
def insertDesc (r : Report) : List Report → List Report
  | [] => [r]
  | x :: xs => if x.createdAt < r.createdAt then r :: x :: xs else x :: insertDesc r xs

/-- Stable sort descending by `createdAt`.  Models both the database
`orderBy createdAt desc` on report fetches and the JavaScript stable
`sort((a, b) => b.createdAt - a.createdAt)`: elements are processed left
to right, each inserted after existing elements with an equal or larger
timestamp, so ties keep their original relative order. -/
def sortByCreatedAtDesc (l : List Report) : List Report :=
  l.foldl (fun acc r => insertDesc r acc) []

/-- First-occurrence deduplication by report id, written with an
accumulator of already-seen ids.  This embeds the JavaScript
`allReports.filter((obj, index, self) => index === self.findIndex(t => t.id === obj.id))`:
an element survives exactly when it is the first element carrying its id. -/
def dedupByIdAux : List Report → List Nat → List Report
  | [], _ => []
  | r :: rs, seen =>
    if r.id ∈ seen then dedupByIdAux rs seen
    else r :: dedupByIdAux rs (r.id :: seen)

/-- Deduplicate a report list by id, keeping the first occurrence. -/
def dedupById (l : List Report) : List Report := dedupByIdAux l []

/-- NIP validation, embedding the regular expression `/^\d{10}$/`. -/
def isValidNip (s : String) : Bool :=
  decide (s.length = 10) && s.data.all Char.isDigit

/-- Report statistics, mirroring the object returned by
`ReportsService.getStatsForTarget`. -/
structure ReportStats where
  total : Nat
  negative : Nat
  positive : Nat
  entries : List Report
deriving DecidableEq

namespace Reports

/-- `ReportsService.getStatsForTarget`: select the report rows linked to
the target (by `companyNip` when the target is a 10-digit NIP, else by
`phoneNumber`), ordered descending by creation time at the source, and
count negatives (rating ≤ 2) and positives (rating ≥ 4). -/
def getStatsForTarget (reportRows : List Report) (targetValue : String) : ReportStats :=
  let isNip := isValidNip targetValue
  let selected := reportRows.filter fun r =>
    if isNip then decide (r.companyNip = some targetValue)
    else decide (r.phoneNumber = some targetValue)
  let reports := sortByCreatedAtDesc selected
  { total := reports.length
    negative := (reports.filter fun r => decide (r.rating ≤ 2)).length
    positive := (reports.filter fun r => decide (r.rating ≥ 4)).length
    entries := reports }

end Reports

namespace Org

/-- Registry response of `VatService.checkVatStatus`, the shape consumed
by `verifyCompany` (`accountNumbers` is `[]` when the registry returned
none, matching the falsy `?.length > 0` check). -/
structure VatData where
  found : Bool
  name : String
  statusVat : String
  accountNumbers : List String
  /-- The opaque serialized payload, stored as-is into `Company.rawData`. -/
  raw : String := ""
deriving DecidableEq

/-- Per-NIP slice of the persisted store seen by `verifyCompany`: the
`Company` row for the queried NIP (if any) and the `Report` table rows. -/
structure OrgState where
  company : Option Company
  reports : List Report
deriving DecidableEq

/-- The `company` object embedded in the verification response. -/
structure CompanyView where
  name : String
  nip : String
  vat : String
deriving DecidableEq

/-- One element of `community.latestComments` on the organization path,
the object produced inside `mapReportComments`. -/
structure CommentView where
  id : Nat
  date : Int
  reason : String
  comment : String
  rating : Int
  reportedEmail : Option String
  facebookLink : Option String
  screenshotUrl : Option String
  bankAccount : Option String
  phoneNumber : Option String
deriving DecidableEq

/-- The organization verification response (`VerificationResponse`). -/
structure OrgResult where
  query : String
  trustScore : Int
  riskLevel : String
  source : String
  phones : List String
  company : CompanyView
  alerts : Nat
  totalReports : Nat
  latestComments : List CommentView
deriving DecidableEq

/-- Outcome of `verifyCompany`: a response, or one of the two exception
kinds the method can throw (`BadRequestException`, `NotFoundException`). -/
inductive OrgOutcome where
  | ok (r : OrgResult)
  | badRequest (msg : String)
  | notFound (msg : String)
deriving DecidableEq

/-- Trust score carried by an `ok` outcome (`none` for exceptions). -/
def OrgOutcome.score? : OrgOutcome → Option Int
  | .ok r => some r.trustScore
  | _ => none

/-- Risk label carried by an `ok` outcome (`none` for exceptions). -/
def OrgOutcome.risk? : OrgOutcome → Option String
  | .ok r => some r.riskLevel
  | _ => none

/-- Source tag carried by an `ok` outcome (`none` for exceptions). -/
def OrgOutcome.sourceTag? : OrgOutcome → Option String
  | .ok r => some r.source
  | _ => none

/-- `ONE_DAY_MS = 24 * 60 * 60 * 1000`, the freshness window. -/
def ONE_DAY_MS : Int := 24 * 60 * 60 * 1000

/-- `calculateRiskLevel`: fixed thresholds mapping a score to a label. -/
def calculateRiskLevel (score : Int) : String :=
  if score ≥ 80 then "Very Low"
  else if score ≥ 50 then "Medium"
  else if score ≥ 20 then "High"
  else "Critical"

/-- `calculateInitialTrustScore`: start at 0; +30 if found; +40 if the
VAT status is the literal "Czynny" (active); +20 if at least one bank
account number was returned. -/
def calculateInitialTrustScore (vatData : VatData) : Int :=
  let score : Int := 0
  let score := if vatData.found then score + 30 else score
  let score := if vatData.statusVat = "Czynny" then score + 40 else score
  let score := if vatData.accountNumbers.length > 0 then score + 20 else score
  score

/-- `upsertCompanyData`: create the row if absent, else overwrite
name / VAT status / score / risk / raw payload; Prisma stamps
`updatedAt = now` on both branches.  Returns the stored row and the
updated state. -/
def upsertCompanyData (nip : String) (vatData : VatData) (trustScore : Int)
    (now : Int) (st : OrgState) : Company × OrgState :=
  let riskLevel := calculateRiskLevel trustScore
  let updated : Company :=
    match st.company with
    | some c =>
        { c with
          name := vatData.name, statusVat := vatData.statusVat,
          trustScore := trustScore, riskLevel := riskLevel,
          rawData := some vatData.raw, updatedAt := now }
    | none =>
        { nip := nip, name := vatData.name, statusVat := vatData.statusVat,
          trustScore := trustScore, riskLevel := riskLevel,
          updatedAt := now, phones := [], rawData := some vatData.raw }
  (updated, { st with company := some updated })

/-- `mapReportComments`: `entries.slice(-5).map(...)`, i.e. the LAST five
elements of the entries list projected to comment objects. -/
def mapReportComments (entries : List Report) : List CommentView :=
  (entries.drop (entries.length - 5)).map fun r =>
    { id := r.id, date := r.createdAt, reason := r.reason,
      comment := r.comment, rating := r.rating,
      reportedEmail := r.reportedEmail, facebookLink := r.facebookLink,
      screenshotUrl := r.screenshotUrl, bankAccount := r.bankAccount,
      phoneNumber := r.phoneNumber }

/-- `buildVerificationResponse`. -/
def buildVerificationResponse (nip : String) (trustScore : Int) (source : String)
    (companyData : Option Company) (phones : List String)
    (reportStats : ReportStats) : OrgResult :=
  { query := nip
    trustScore := trustScore
    riskLevel := calculateRiskLevel trustScore
    source := source
    phones := phones
    company :=
      match companyData with
      | some c => { name := c.name, nip := c.nip, vat := c.statusVat }
      | none => { name := "No data", nip := nip, vat := "Unknown" }
    alerts := reportStats.negative
    totalReports := reportStats.total
    latestComments := mapReportComments reportStats.entries }

/-- `verifyCompany`.  Inputs: the registry client's response for this NIP
(`none` models a null payload, `found = false` a not-found report), the
current time, the per-NIP store state, and the NIP.  Output: the outcome,
the state after the call, and the number of registry invocations made. -/
def verifyCompany (registry : Option VatData) (now : Int) (st : OrgState)
    (nip : String) : OrgOutcome × OrgState × Nat :=
  if isValidNip nip = false then (.badRequest "Invalid NIP format", st, 0)
  else
    let reportStats := Reports.getStatsForTarget st.reports nip
    let cachedCompany := st.company
    let isFresh : Bool :=
      match cachedCompany with
      | some c => decide (now - c.updatedAt < ONE_DAY_MS)
      | none => false
    let phones : List String :=
      match cachedCompany with
      | some c => c.phones
      | none => []
    let step : ((Int × Company × String × OrgState) ⊕ String) × Nat :=
      match cachedCompany, isFresh with
      | some c, true => (Sum.inl (c.trustScore, c, "CACHE_DB", st), 0)
      | _, _ =>
        match registry with
        | none =>
            (Sum.inr ("Company with NIP " ++ nip ++ " not found in VAT registry"), 1)
        | some vatData =>
          if vatData.found = false then
            (Sum.inr ("Company with NIP " ++ nip ++ " not found in VAT registry"), 1)
          else
            let baseTrustScore := calculateInitialTrustScore vatData
            let (companyData, st') := upsertCompanyData nip vatData baseTrustScore now st
            (Sum.inl (baseTrustScore, companyData, "LIVE_API", st'), 1)
    match step with
    | (Sum.inr msg, n) => (.notFound msg, st, n)
    | (Sum.inl (baseTrustScore, companyData, source, st'), n) =>
      let finalTrustScore :=
        if reportStats.negative > 0 then
          baseTrustScore - (reportStats.negative : Int) * 15
        else baseTrustScore
      let finalTrustScore := max 0 finalTrustScore
      (.ok (buildVerificationResponse nip finalTrustScore source (some companyData)
              phones reportStats), st', n)

/-- HTTP-level outcome of the controller's `checkCompany` handler. -/
inductive HttpOutcome where
  | ok (r : OrgResult)
  | badRequest (msg : String)
  | internalError (msg : String)
deriving DecidableEq

/-- `VerificationController.checkCompany`: forwards the service call and
rethrows only `BadRequestException`; every other thrown error (including
`NotFoundException`) is replaced by a generic 500. -/
def checkCompany (registry : Option VatData) (now : Int) (st : OrgState)
    (nip : String) : HttpOutcome :=
  match (verifyCompany registry now st nip).1 with
  | .ok r => .ok r
  | .badRequest m => .badRequest m
  | .notFound _ => .internalError "Company verification failed"

end Org

namespace Phone

/-- A row of the `PhoneNumber` table. -/
structure PhoneRow where
  number : String
  countryCode : String
  trustScore : Int
  riskLevel : String
  companyNip : Option String := none
deriving DecidableEq

/-- A row of the `Person` table (fields the phone path reads). -/
structure PersonRow where
  id : Nat
  name : String
  trustScore : Int
  riskLevel : String
deriving DecidableEq

/-- The store slice seen by the phone/person path and by report
creation: phone rows, person rows, report rows and company rows. -/
structure Db where
  phoneRows : List PhoneRow
  personRows : List PersonRow
  reportRows : List Report
  companies : List Company
deriving DecidableEq

/-- `PhoneNumberEntry`: the phone row joined with its reports (ordered
descending by creation time at the source) and its linked company. -/
structure PhoneNumberEntry where
  number : String
  trustScore : Int
  riskLevel : String
  reports : List Report
  company : Option Company
deriving DecidableEq

/-- `PersonEntry`: the person row joined with its reports (ordered
descending by creation time at the source). -/
structure PersonEntry where
  id : Nat
  name : String
  trustScore : Int
  riskLevel : String
  reports : List Report
deriving DecidableEq

/-- Behaviour of the `google-libphonenumber` collaborator on the raw
input under the default region: whether `parseAndKeepRawInput` succeeds,
whether `isValidNumber` holds, and the E.164 rendering on success. -/
structure PhoneLib where
  parseOk : Bool
  valid : Bool
  e164 : String
deriving DecidableEq

/-- Inner body of `parseAndValidatePhone` before the catch-all handler:
an input containing a letter (`/[a-zA-Z]/`), a parse failure, or a failed
`isValidNumber` check each throw; a valid number yields its E.164 form. -/
def parseAttempt (rawInput : String) (lib : PhoneLib) : Except String (String × Bool) :=
  if rawInput.data.any Char.isAlpha then
    .error "Input contains letters and cannot be a phone number"
  else if lib.parseOk = false then
    .error "parse failure"
  else if lib.valid then .ok (lib.e164, true)
  else .error "Phone number validation failed"

/-- `parseAndValidatePhone`: the try/catch wrapper around
`parseAttempt`.  Every thrown error is caught and the input degrades to a
person-name query: `formattedQuery = rawInput`, `isPhone = false`. -/
def parseAndValidatePhone (rawInput : String) (lib : PhoneLib) : String × Bool :=
  match parseAttempt rawInput lib with
  | .ok r => r
  | .error _ => (rawInput, false)

/-- `fetchDatabaseEntries`: when the query is a valid phone, look up the
phone row by unique number together with its reports (ordered descending)
and linked company; always look up the first person row whose name equals
the query, with its reports (ordered descending). -/
def fetchDatabaseEntries (db : Db) (formattedQuery : String) (isPhone : Bool) :
    Option PhoneNumberEntry × Option PersonEntry :=
  let dbPhoneEntry : Option PhoneNumberEntry :=
    if isPhone then
      (db.phoneRows.find? fun p => decide (p.number = formattedQuery)).map fun p =>
        { number := p.number, trustScore := p.trustScore, riskLevel := p.riskLevel
          reports := sortByCreatedAtDesc
            (db.reportRows.filter fun r => decide (r.phoneNumber = some p.number))
          company := p.companyNip.bind fun n =>
            db.companies.find? fun c => decide (c.nip = n) }
    else none
  let dbPersonEntry : Option PersonEntry :=
    (db.personRows.find? fun q => decide (q.name = formattedQuery)).map fun q =>
      { id := q.id, name := q.name, trustScore := q.trustScore
        riskLevel := q.riskLevel
        reports := sortByCreatedAtDesc
          (db.reportRows.filter fun r => decide (r.personId = some q.id)) }
  (dbPhoneEntry, dbPersonEntry)

/-- `aggregateReports`: report lists of the resolved entries (empty when
an entry is absent) and the phone-linked company. -/
def aggregateReports (dbPhoneEntry : Option PhoneNumberEntry)
    (dbPersonEntry : Option PersonEntry) :
    List Report × List Report × Option Company :=
  ((dbPhoneEntry.map (·.reports)).getD [],
   (dbPersonEntry.map (·.reports)).getD [],
   dbPhoneEntry.bind (·.company))

/-- `mergeAndSortReports`: concatenate phone-linked then person-linked
reports, drop later duplicates by id (first occurrence wins), and
stable-sort the survivors by creation date, newest first. -/
def mergeAndSortReports (phoneReports personReports : List Report) : List Report :=
  let allReports := phoneReports ++ personReports
  let uniqueReports := dedupById allReports
  sortByCreatedAtDesc uniqueReports

/-- `calculateTrustMetrics`: seed score/risk from the phone entry, else
the person entry, else the defaults (50, 'Nieznany'); count negative
reports (rating ≤ 2); with no entry, a positive negative count gives
`score - 20 * count` and 'Wysoki', otherwise 'Brak danych'; with an
entry, only a positive count combined with a still-default score of 50
gives `score - 15 * count` and 'Podwyższone'; finally floor at 0. -/
def calculateTrustMetrics (allReports : List Report)
    (dbPhoneEntry : Option PhoneNumberEntry)
    (dbPersonEntry : Option PersonEntry) : Int × String :=
  let trustScore : Int :=
    match dbPhoneEntry with
    | some p => p.trustScore
    | none =>
      match dbPersonEntry with
      | some q => q.trustScore
      | none => 50
  let riskLevel : String :=
    match dbPhoneEntry with
    | some p => p.riskLevel
    | none =>
      match dbPersonEntry with
      | some q => q.riskLevel
      | none => "Nieznany"
  let negativeReports := (allReports.filter fun r => decide (r.rating ≤ 2)).length
  let existsInDb := dbPhoneEntry.isSome || dbPersonEntry.isSome
  let adjusted : Int × String :=
    if existsInDb = false then
      if negativeReports > 0 then
        (trustScore - (negativeReports : Int) * 20, "Wysoki")
      else (trustScore, "Brak danych")
    else if negativeReports > 0 ∧ trustScore = 50 then
      (trustScore - (negativeReports : Int) * 15, "Podwyższone")
    else (trustScore, riskLevel)
  (max adjusted.1 0, adjusted.2)

/-- One element of `community.latestComments` on the phone path. -/
structure PhoneCommentView where
  date : Int
  reason : String
  comment : String
  rating : Int
  phoneNumber : Option String
  bankAccount : Option String
  reportedEmail : Option String
  facebookLink : Option String
  screenshotUrl : Option String
  screenshotPath : Option String
deriving DecidableEq

/-- The phone/person verification response (`VerificationResponse`). -/
structure PhoneResponse where
  query : String
  isPhone : Bool
  trustScore : Int
  riskLevel : String
  source : String
  company : Option Org.CompanyView
  alerts : Nat
  totalReports : Nat
  latestComments : List PhoneCommentView
deriving DecidableEq

/-- `buildVerificationResponse` of the phone path: source is 'DB' when
any entry resolved, else 'None'; the full evidence list is mapped with no
trailing-window truncation. -/
def buildVerificationResponse (query : String) (isPhone : Bool)
    (trustScore : Int) (riskLevel : String) (company : Option Company)
    (allReports : List Report) (existsInDb : Bool) : PhoneResponse :=
  let negativeReports := (allReports.filter fun r => decide (r.rating ≤ 2)).length
  { query := query
    isPhone := isPhone
    trustScore := trustScore
    riskLevel := riskLevel
    source := if existsInDb then "DB" else "None"
    company := company.map fun c => { name := c.name, nip := c.nip, vat := c.statusVat }
    alerts := negativeReports
    totalReports := allReports.length
    latestComments := allReports.map fun r =>
      { date := r.createdAt, reason := r.reason, comment := r.comment,
        rating := r.rating, phoneNumber := r.phoneNumber,
        bankAccount := r.bankAccount, reportedEmail := r.reportedEmail,
        facebookLink := r.facebookLink, screenshotUrl := r.screenshotUrl,
        screenshotPath := r.screenshotPath } }

/-- `checkPhone`: the whole phone/person verification pipeline.  `lib`
is the numbering library's behaviour on `rawInput`; the store is read
only, never written. -/
def checkPhone (db : Db) (lib : PhoneLib) (rawInput : String) : PhoneResponse :=
  let parsed := parseAndValidatePhone rawInput lib
  let entries := fetchDatabaseEntries db parsed.1 parsed.2
  let agg := aggregateReports entries.1 entries.2
  let allReports := mergeAndSortReports agg.1 agg.2.1
  let metrics := calculateTrustMetrics allReports entries.1 entries.2
  buildVerificationResponse parsed.1 parsed.2 metrics.1 metrics.2 agg.2.2
    allReports (entries.1.isSome || entries.2.isSome)

end Phone

namespace Reports

/-- Input DTO of `ReportsService.create`. -/
structure CreateReportDto where
  rating : Int
  reason : String
  comment : String
  targetType : String
  targetValue : String
  reportedEmail : Option String := none
  facebookLink : Option String := none
  screenshotUrl : Option String := none
deriving DecidableEq

/-- Prisma-schema column default for `PhoneNumber.riskLevel`, as in the
repository's migration defaults for trust entities. -/
def DEFAULT_PHONE_RISK : String := "Nieznany"

/-- The `phoneNumber.upsert` issued by `ReportsService.create` for PHONE
and PERSON targets: `create` inserts the row with country code 'PL' and
default trust score 50; `update: {}` leaves an existing row untouched. -/
def upsertPhoneRowForReport (rows : List Phone.PhoneRow) (number : String) :
    List Phone.PhoneRow :=
  match rows.find? fun p => decide (p.number = number) with
  | some _ => rows
  | none =>
      rows ++ [{ number := number, countryCode := "PL", trustScore := 50,
                 riskLevel := DEFAULT_PHONE_RISK, companyNip := none }]

/-- Phone-row list carried by a successful `create` result (`none` when
the call threw). -/
def resultPhoneRows? : Except String (Phone.Db × Report) → Option (List Phone.PhoneRow)
  | .ok (db, _) => some db.phoneRows
  | .error _ => none

open Phone in
/-- `ReportsService.create`: NIP targets connect the report to the
company; PHONE and PERSON targets first upsert the phone row, then
connect the report to that number; any other target type throws. -/
def create (db : Db) (dto : CreateReportDto) (userId : Nat) (ip : String)
    (newId : Nat) (now : Int) : Except String (Db × Report) :=
  let base : Report :=
    { id := newId, rating := dto.rating, createdAt := now,
      reason := dto.reason, comment := dto.comment, ipAddress := ip,
      userId := userId,
      reportedEmail := dto.reportedEmail, facebookLink := dto.facebookLink,
      screenshotUrl := dto.screenshotUrl }
  if dto.targetType = "NIP" then
    let report := { base with companyNip := some dto.targetValue }
    .ok ({ db with reportRows := db.reportRows ++ [report] }, report)
  else if dto.targetType = "PHONE" ∨ dto.targetType = "PERSON" then
    let phoneRows := upsertPhoneRowForReport db.phoneRows dto.targetValue
    let report := { base with phoneNumber := some dto.targetValue }
    .ok ({ db with phoneRows := phoneRows,
                   reportRows := db.reportRows ++ [report] }, report)
  else .error ("Nieobsługiwany typ: " ++ dto.targetType)

end Reports


/- Concrete sample data used to instantiate the verification theorems on
executable inputs. -/
namespace Samples

/-- A fresh cached company with the neutral record shape of a prior
successful lookup. -/
def companyFresh : Company :=
  { nip := "1234567890", name := "Firma A", statusVat := "Czynny",
    trustScore := 80, riskLevel := "Very Low", updatedAt := 0,
    phones := ["+48111222333"], rawData := none }

/-- State for the fresh-cache scenario: the cached row, no reports. -/
def stateFresh : Org.OrgState := { company := some companyFresh, reports := [] }

/-- A negative report (rating 1) filed against NIP 1234567890. -/
def negOrgReport : Report :=
  { id := 1, rating := 1, createdAt := 5, reason := "scam", comment := "",
    companyNip := some "1234567890" }

/-- A cached company whose stored score 90 differs from the neutral 50. -/
def companyScore90 : Company :=
  { nip := "1234567890", name := "Firma B", statusVat := "Czynny",
    trustScore := 90, riskLevel := "Very Low", updatedAt := 0 }

/-- State with a fresh cached score-90 company and one negative report. -/
def stateScore90 : Org.OrgState :=
  { company := some companyScore90, reports := [negOrgReport] }

/-- Empty per-NIP state: no cached company, no reports. -/
def stateEmpty : Org.OrgState := { company := none, reports := [] }

/-- Registry payload for the fresh-organization scenario: found, active
VAT, one bank account. -/
def vatActive : Org.VatData :=
  { found := true, name := "Nowa Firma", statusVat := "Czynny",
    accountNumbers := ["11222233334444555566667777"], raw := "payload" }

/-- Registry payload reporting not-found. -/
def vatNotFound : Org.VatData :=
  { found := false, name := "", statusVat := "", accountNumbers := [], raw := "" }

/-- A report reachable through the phone path. -/
def dupReportPhoneCopy : Report :=
  { id := 7, rating := 1, createdAt := 10, reason := "fraud", comment := "phone copy" }

/-- The same report (same id) as fetched through the person path. -/
def dupReportPersonCopy : Report :=
  { id := 7, rating := 1, createdAt := 10, reason := "fraud", comment := "person copy" }

/-- Six reports on NIP 1234567890, ids 6..1, newest (id 6) first. -/
def sixEntriesDesc : List Report :=
  [ { id := 6, rating := 1, createdAt := 6, reason := "r6", comment := "" },
    { id := 5, rating := 1, createdAt := 5, reason := "r5", comment := "" },
    { id := 4, rating := 1, createdAt := 4, reason := "r4", comment := "" },
    { id := 3, rating := 1, createdAt := 3, reason := "r3", comment := "" },
    { id := 2, rating := 1, createdAt := 2, reason := "r2", comment := "" },
    { id := 1, rating := 1, createdAt := 1, reason := "r1", comment := "" } ]

/-- Store for the unknown-phone scenario: no phone row, no person row,
but a negative report row pointing at the number. -/
def dbUnknownPhone : Phone.Db :=
  { phoneRows := [], personRows := [],
    reportRows := [ { id := 1, rating := 1, createdAt := 3, reason := "scam",
                      comment := "", phoneNumber := some "+48600000000" } ],
    companies := [] }

/-- Numbering-library behaviour: parse succeeds and the number is valid,
E.164 form "+48600000000". -/
def libValidPhone : Phone.PhoneLib :=
  { parseOk := true, valid := true, e164 := "+48600000000" }

/-- Numbering-library behaviour: parse succeeds but validation fails. -/
def libInvalidPhone : Phone.PhoneLib :=
  { parseOk := true, valid := false, e164 := "" }

/-- A cached company whose stored (admin-edited) score already exceeds
100. -/
def companyScore150 : Company :=
  { nip := "1234567890", name := "Firma C", statusVat := "Czynny",
    trustScore := 150, riskLevel := "Very Low", updatedAt := 0 }

/-- State with the score-150 company and no reports. -/
def stateScore150 : Org.OrgState :=
  { company := some companyScore150, reports := [] }

/-- An existing phone row with a non-default trust score. -/
def phoneRow70 : Phone.PhoneRow :=
  { number := "+48123123123", countryCode := "PL", trustScore := 70,
    riskLevel := "Niski" }

/-- Report DTO targeting the existing phone number. -/
def dtoPhoneExisting : Reports.CreateReportDto :=
  { rating := 1, reason := "scam", comment := "", targetType := "PHONE",
    targetValue := "+48123123123" }

/-- Report DTO targeting a number with no stored row. -/
def dtoPhoneNew : Reports.CreateReportDto :=
  { rating := 1, reason := "scam", comment := "", targetType := "PERSON",
    targetValue := "+48999888777" }

/-- Store holding just the existing phone row. -/
def dbOnePhone : Phone.Db :=
  { phoneRows := [phoneRow70], personRows := [], reportRows := [], companies := [] }

end Samples

end TrustCheck

namespace TrustCheck

theorem insertDesc_perm (r : Report) (l : List Report) :
    List.Perm (insertDesc r l) (r :: l) := by
  induction l with
  | nil => simp [insertDesc]
  | cons x xs ih =>
    simp only [insertDesc]
    by_cases h : x.createdAt < r.createdAt
    · simp [h]
    · simp only [h, if_false]
      exact (ih.cons x).trans (List.Perm.swap r x xs)

theorem foldl_insertDesc_perm (l acc : List Report) :
    List.Perm (l.foldl (fun acc r => insertDesc r acc) acc) (l ++ acc) := by
  induction l generalizing acc with
  | nil => simp
  | cons r rs ih =>
    simp only [List.foldl_cons, List.cons_append]
    refine (ih (insertDesc r acc)).trans ?_
    refine (List.Perm.append_left rs (insertDesc_perm r acc)).trans ?_
    exact List.perm_middle

theorem sortByCreatedAtDesc_perm (l : List Report) :
    List.Perm (sortByCreatedAtDesc l) l := by
  simpa using foldl_insertDesc_perm l []

theorem dedupByIdAux_filter_of_seen (l : List Report) (seen : List Nat) (k : Nat)
    (hk : k ∈ seen) :
    (dedupByIdAux l seen).filter (fun t => decide (t.id = k)) = [] := by
  induction l generalizing seen with
  | nil => simp [dedupByIdAux]
  | cons r rs ih =>
    simp only [dedupByIdAux]
    by_cases hmem : r.id ∈ seen
    · simpa [hmem] using ih seen hk
    · have hne : r.id ≠ k := fun h => hmem (h ▸ hk)
      simp only [hmem, if_false, List.filter_cons]
      simp only [hne, decide_eq_true_eq, if_false]
      exact ih (r.id :: seen) (List.mem_cons_of_mem _ hk)

theorem dedupByIdAux_filter_eq_find (l : List Report) (seen : List Nat) (k : Nat)
    (hk : k ∉ seen) :
    (dedupByIdAux l seen).filter (fun t => decide (t.id = k)) =
      (l.find? (fun t => decide (t.id = k))).toList := by
  induction l generalizing seen with
  | nil => simp [dedupByIdAux]
  | cons r rs ih =>
    simp only [dedupByIdAux]
    by_cases hmem : r.id ∈ seen
    · have hne : r.id ≠ k := fun h => hk (h ▸ hmem)
      rw [if_pos hmem, ih seen hk, List.find?_cons]
      simp [hne]
    · rw [if_neg hmem]
      by_cases hid : r.id = k
      · rw [List.filter_cons, List.find?_cons]
        simp only [hid, decide_eq_true_eq, if_pos trivial]
        rw [dedupByIdAux_filter_of_seen rs (k :: seen) k (by simp)]
        simp
      · rw [List.filter_cons, List.find?_cons]
        have hdec : decide (r.id = k) = false := by simp [hid]
        rw [hdec]
        simp only [Bool.false_eq_true, if_false]
        have hk2 : k ∉ r.id :: seen := by
          intro hmem2
          rcases List.mem_cons.mp hmem2 with h | h
          · exact hid h.symm
          · exact hk h
        exact ih (r.id :: seen) hk2

theorem dedupById_filter_eq_find (l : List Report) (k : Nat) :
    (dedupById l).filter (fun t => decide (t.id = k)) =
      (l.find? (fun t => decide (t.id = k))).toList :=
  dedupByIdAux_filter_eq_find l [] k (by simp)

theorem mem_dedupByIdAux (l : List Report) (seen : List Nat) (x : Report)
    (hx : x ∈ dedupByIdAux l seen) : x ∈ l := by
  induction l generalizing seen with
  | nil => simp [dedupByIdAux] at hx
  | cons r rs ih =>
    simp only [dedupByIdAux] at hx
    by_cases hmem : r.id ∈ seen
    · rw [if_pos hmem] at hx
      exact List.mem_cons_of_mem _ (ih seen hx)
    · rw [if_neg hmem] at hx
      rcases List.mem_cons.mp hx with h | h
      · exact h ▸ List.mem_cons_self r rs
      · exact List.mem_cons_of_mem _ (ih (r.id :: seen) h)


/-- Evaluation of `verifyCompany` on the fresh-cache branch: a stored
company whose age is under the 24-hour window yields the cached record,
source CACHE_DB, base score equal to the stored trust score, no state
change and no registry invocation. -/
theorem verifyCompany_fresh_eval (reg : Option Org.VatData) (now : Int)
    (st : Org.OrgState) (nip : String) (c : Company)
    (hnip : isValidNip nip = true)
    (hc : st.company = some c)
    (hfresh : now - c.updatedAt < Org.ONE_DAY_MS) :
    Org.verifyCompany reg now st nip =
      (Org.OrgOutcome.ok (Org.buildVerificationResponse nip
          (max 0 (if (Reports.getStatsForTarget st.reports nip).negative > 0
            then c.trustScore - ((Reports.getStatsForTarget st.reports nip).negative : Int) * 15
            else c.trustScore))
          "CACHE_DB" (some c) c.phones (Reports.getStatsForTarget st.reports nip)),
        st, 0) := by
  simp only [Org.verifyCompany, hnip, Bool.true_eq_false, if_false, hc,
    decide_eq_true hfresh]


/-- C1: for every organization lookup where a stored record exists and
now minus its lastUpdated is strictly under 24 hours, `verifyCompany`
answers from the cache: source CACHE_DB, base score equal to the stored
trust score (the final score is derived from it), the stored record
returned unchanged in the response and the store left unwritten, with
zero registry invocations; moreover any second call for the same tax-id,
made on the resulting state while the record is still inside its
freshness window, also issues zero registry calls. -/
theorem c1_fresh_cache_skips_registry
    (reg : Option Org.VatData) (now : Int) (st : Org.OrgState) (nip : String)
    (c : Company) (hnip : isValidNip nip = true) (hc : st.company = some c)
    (hfresh : now - c.updatedAt < Org.ONE_DAY_MS) :
    Org.verifyCompany reg now st nip =
      (Org.OrgOutcome.ok (Org.buildVerificationResponse nip
          (max 0 (if (Reports.getStatsForTarget st.reports nip).negative > 0
            then c.trustScore - ((Reports.getStatsForTarget st.reports nip).negative : Int) * 15
            else c.trustScore))
          "CACHE_DB" (some c) c.phones (Reports.getStatsForTarget st.reports nip)),
        st, 0) ∧
    ∀ (reg2 : Option Org.VatData) (t1 : Int), t1 - c.updatedAt < Org.ONE_DAY_MS →
      (Org.verifyCompany reg2 t1 (Org.verifyCompany reg now st nip).2.1 nip).2.2 = 0 := by
  have h1 := verifyCompany_fresh_eval reg now st nip c hnip hc hfresh
  refine ⟨h1, fun reg2 t1 hfresh2 => ?_⟩
  rw [h1]
  rw [verifyCompany_fresh_eval reg2 t1 st nip c hnip hc hfresh2]

/-- C1 witness: concrete fresh-cache state; the first call and a second
call 100 ms later both issue zero registry invocations, and the first
call reports source CACHE_DB with the stored score 80. -/
theorem c1_witness :
    (Org.verifyCompany none 100 Samples.stateFresh "1234567890").2.2 = 0 ∧
    (Org.verifyCompany none 200
        (Org.verifyCompany none 100 Samples.stateFresh "1234567890").2.1
        "1234567890").2.2 = 0 ∧
    Org.OrgOutcome.sourceTag?
        (Org.verifyCompany none 100 Samples.stateFresh "1234567890").1 = some "CACHE_DB" ∧
    Org.OrgOutcome.score?
        (Org.verifyCompany none 100 Samples.stateFresh "1234567890").1 = some 80 := by
  have h := c1_fresh_cache_skips_registry none 100 Samples.stateFresh "1234567890"
    Samples.companyFresh (by decide) rfl (by decide)
  refine ⟨by rw [h.1], h.2 none 200 (by decide), by rw [h.1]; rfl, by rw [h.1]; rfl⟩


/-- C2 counterexample: organization path, fresh cached company with
stored score 90 (not the neutral 50) and stored risk "Very Low", one
negative report.  The claim predicts the stored score and risk label are
returned as-is; the code instead subtracts 15 per negative report
unconditionally and recomputes the label, returning 75 / "Medium". -/
theorem c2_counterexample :
    Org.OrgOutcome.score?
      (Org.verifyCompany none 1000 Samples.stateScore90 "1234567890").1 = some 75 ∧
    Org.OrgOutcome.risk?
      (Org.verifyCompany none 1000 Samples.stateScore90 "1234567890").1 = some "Medium" ∧
    Org.OrgOutcome.score?
      (Org.verifyCompany none 1000 Samples.stateScore90 "1234567890").1 ≠ some 90 := by
  refine ⟨rfl, rfl, by decide⟩

/-- Evaluation of `verifyCompany` on the stale-refresh branch: a stored
company at least 24 hours old together with a found registry payload is
refreshed from the registry (source LIVE_API, one registry call), the
base score is the freshly computed registry score, the upserted record
is stored, and the final score/risk come from the shared tail of the
method: penalty whenever negatives exist, floor at 0, label recomputed
from the thresholds. -/
theorem verifyCompany_stale_live_eval (v : Org.VatData) (now : Int)
    (st : Org.OrgState) (nip : String) (c : Company)
    (hnip : isValidNip nip = true) (hc : st.company = some c)
    (hstale : Org.ONE_DAY_MS ≤ now - c.updatedAt) (hfound : v.found = true) :
    Org.verifyCompany (some v) now st nip =
      (Org.OrgOutcome.ok (Org.buildVerificationResponse nip
          (max 0 (if (Reports.getStatsForTarget st.reports nip).negative > 0
            then Org.calculateInitialTrustScore v -
              ((Reports.getStatsForTarget st.reports nip).negative : Int) * 15
            else Org.calculateInitialTrustScore v))
          "LIVE_API"
          (some (Org.upsertCompanyData nip v (Org.calculateInitialTrustScore v) now st).1)
          c.phones (Reports.getStatsForTarget st.reports nip)),
        (Org.upsertCompanyData nip v (Org.calculateInitialTrustScore v) now st).2, 1) := by
  simp only [Org.verifyCompany, hnip, Bool.true_eq_false, if_false, hc, hfound,
    decide_eq_false (not_lt.mpr hstale)]

/-- C2 amended: on the phone/person path a prior record is adjusted only
when negativeCount > 0 and the stored score is exactly 50, giving
score - 15 * negativeCount (floored at 0) with label "Podwyższone"
(Elevated); otherwise the stored score (floored at 0) and stored label
are returned.  On the organization path, by contrast, the 15-point
penalty per negative report applies to the base score whenever
negativeCount > 0 regardless of whether the stored score is 50 — to the
stored score when the cache is fresh, and to the freshly computed
registry score when the prior record is stale and refreshed — and in
both cases the risk label is recomputed from the fixed thresholds
rather than taken from the stored label; the penalised score is not
written back, so a repeated call inside the freshness window returns
the same outcome rather than compounding the penalty. -/
theorem c2_amended_per_path_adjustment
    (now t1 : Int) (st : Org.OrgState) (nip : String) (c : Company)
    (reg reg2 : Option Org.VatData)
    (hnip : isValidNip nip = true) (hc : st.company = some c) :
    (∀ (allReports : List Report) (p : Phone.PhoneNumberEntry)
        (qe : Option Phone.PersonEntry),
      Phone.calculateTrustMetrics allReports (some p) qe =
        (if 0 < (allReports.filter fun r => decide (r.rating ≤ 2)).length ∧
            p.trustScore = 50
         then (max (p.trustScore -
                ((allReports.filter fun r => decide (r.rating ≤ 2)).length : Int) * 15) 0,
               "Podwyższone")
         else (max p.trustScore 0, p.riskLevel))) ∧
    (∀ (allReports : List Report) (q : Phone.PersonEntry),
      Phone.calculateTrustMetrics allReports none (some q) =
        (if 0 < (allReports.filter fun r => decide (r.rating ≤ 2)).length ∧
            q.trustScore = 50
         then (max (q.trustScore -
                ((allReports.filter fun r => decide (r.rating ≤ 2)).length : Int) * 15) 0,
               "Podwyższone")
         else (max q.trustScore 0, q.riskLevel))) ∧
    (now - c.updatedAt < Org.ONE_DAY_MS →
      Org.OrgOutcome.score? (Org.verifyCompany reg now st nip).1 =
        some (max 0 (if (Reports.getStatsForTarget st.reports nip).negative > 0
          then c.trustScore - ((Reports.getStatsForTarget st.reports nip).negative : Int) * 15
          else c.trustScore)) ∧
      Org.OrgOutcome.risk? (Org.verifyCompany reg now st nip).1 =
        some (Org.calculateRiskLevel
          (max 0 (if (Reports.getStatsForTarget st.reports nip).negative > 0
            then c.trustScore - ((Reports.getStatsForTarget st.reports nip).negative : Int) * 15
            else c.trustScore)))) ∧
    (∀ v : Org.VatData, Org.ONE_DAY_MS ≤ now - c.updatedAt → v.found = true →
      Org.OrgOutcome.score? (Org.verifyCompany (some v) now st nip).1 =
        some (max 0 (if (Reports.getStatsForTarget st.reports nip).negative > 0
          then Org.calculateInitialTrustScore v -
            ((Reports.getStatsForTarget st.reports nip).negative : Int) * 15
          else Org.calculateInitialTrustScore v)) ∧
      Org.OrgOutcome.risk? (Org.verifyCompany (some v) now st nip).1 =
        some (Org.calculateRiskLevel
          (max 0 (if (Reports.getStatsForTarget st.reports nip).negative > 0
            then Org.calculateInitialTrustScore v -
              ((Reports.getStatsForTarget st.reports nip).negative : Int) * 15
            else Org.calculateInitialTrustScore v)))) ∧
    (now - c.updatedAt < Org.ONE_DAY_MS → t1 - c.updatedAt < Org.ONE_DAY_MS →
      Org.OrgOutcome.score?
          (Org.verifyCompany reg2 t1 (Org.verifyCompany reg now st nip).2.1 nip).1 =
        Org.OrgOutcome.score? (Org.verifyCompany reg now st nip).1) := by
  refine ⟨?_, ?_, ?_, ?_, ?_⟩
  · intro allReports p qe
    simp only [Phone.calculateTrustMetrics, Option.isSome_some, Bool.true_or,
      Bool.true_eq_false, if_false, gt_iff_lt]
    split <;> rfl
  · intro allReports q
    simp only [Phone.calculateTrustMetrics, Option.isSome_some, Option.isSome_none,
      Bool.or_true, Bool.true_eq_false, if_false, gt_iff_lt]
    split <;> rfl
  · intro hfresh
    have h1 := verifyCompany_fresh_eval reg now st nip c hnip hc hfresh
    exact ⟨by rw [h1]; rfl, by rw [h1]; rfl⟩
  · intro v hstale hfound
    have h2 := verifyCompany_stale_live_eval v now st nip c hnip hc hstale hfound
    exact ⟨by rw [h2]; rfl, by rw [h2]; rfl⟩
  · intro hfresh hfresh2
    have h1 := verifyCompany_fresh_eval reg now st nip c hnip hc hfresh
    rw [h1]
    rw [verifyCompany_fresh_eval reg2 t1 st nip c hnip hc hfresh2]

/-- C2 witness: a stored phone entry at the neutral score 50 plus one
negative report is adjusted to 35 / "Podwyższone"; with the stored score
70 instead, the entry is returned as-is; the concrete fresh-cache
organization call on the stored-90 state yields 75 / "Medium" (risk
recomputed from 75, not the stored "Very Low"); and the same state
refreshed from the registry 24 hours later also yields 75 / "Medium"
from the fresh base 90. -/
theorem c2_amended_witness :
    Phone.calculateTrustMetrics [Samples.dupReportPhoneCopy]
        (some { number := "+48123123123", trustScore := 50, riskLevel := "Nieznany",
                reports := [Samples.dupReportPhoneCopy], company := none }) none =
      (35, "Podwyższone") ∧
    Phone.calculateTrustMetrics [Samples.dupReportPhoneCopy]
        (some { number := "+48123123123", trustScore := 70, riskLevel := "Niski",
                reports := [Samples.dupReportPhoneCopy], company := none }) none =
      (70, "Niski") ∧
    Org.OrgOutcome.score?
      (Org.verifyCompany none 1000 Samples.stateScore90 "1234567890").1 = some 75 ∧
    Org.OrgOutcome.risk?
      (Org.verifyCompany none 1000 Samples.stateScore90 "1234567890").1 =
        some "Medium" ∧
    Org.OrgOutcome.score?
      (Org.verifyCompany (some Samples.vatActive) 86400000 Samples.stateScore90
          "1234567890").1 = some 75 ∧
    Org.OrgOutcome.risk?
      (Org.verifyCompany (some Samples.vatActive) 86400000 Samples.stateScore90
          "1234567890").1 = some "Medium" := by
  have h := c2_amended_per_path_adjustment 1000 1000 Samples.stateScore90 "1234567890"
    Samples.companyScore90 none none (by decide) rfl
  have hfr := h.2.2.1 (by decide)
  have hst := (c2_amended_per_path_adjustment 86400000 0 Samples.stateScore90
      "1234567890" Samples.companyScore90 none none (by decide) rfl).2.2.2.1
    Samples.vatActive (by decide) (by decide)
  refine ⟨?_, ?_, ?_, ?_, ?_, ?_⟩
  · rw [h.1 [Samples.dupReportPhoneCopy]
      { number := "+48123123123", trustScore := 50, riskLevel := "Nieznany",
        reports := [Samples.dupReportPhoneCopy], company := none } none]
    decide
  · rw [h.1 [Samples.dupReportPhoneCopy]
      { number := "+48123123123", trustScore := 70, riskLevel := "Niski",
        reports := [Samples.dupReportPhoneCopy], company := none } none]
    decide
  · rw [hfr.1]
    decide
  · rw [hfr.2]
    decide
  · rw [hst.1]
    decide
  · rw [hst.2]
    decide


/-- C3: a live registry hit scores 0 plus 30 for found, plus 40 when the
VAT status equals the active literal "Czynny", plus 20 when at least one
bank account number was returned; and a not-previously-stored tax-id
with active VAT, one bank account and no reports verifies to score 90,
risk "Very Low", source LIVE_API. -/
theorem c3_initial_score_and_fresh_scenario
    (v : Org.VatData) (st : Org.OrgState) (nip : String) (now : Int)
    (hnip : isValidNip nip = true) (hcomp : st.company = none)
    (hreps : st.reports = []) (hfound : v.found = true)
    (hstatus : v.statusVat = "Czynny") (hacct : v.accountNumbers.length = 1) :
    (∀ w : Org.VatData, Org.calculateInitialTrustScore w =
      (if w.found then 30 else 0) + (if w.statusVat = "Czynny" then 40 else 0) +
        (if w.accountNumbers.length > 0 then 20 else 0)) ∧
    Org.OrgOutcome.score? (Org.verifyCompany (some v) now st nip).1 = some 90 ∧
    Org.OrgOutcome.risk? (Org.verifyCompany (some v) now st nip).1 = some "Very Low" ∧
    Org.OrgOutcome.sourceTag? (Org.verifyCompany (some v) now st nip).1 =
      some "LIVE_API" ∧
    (Org.verifyCompany (some v) now st nip).2.2 = 1 := by
  have hscore : ∀ w : Org.VatData, Org.calculateInitialTrustScore w =
      (if w.found then 30 else 0) + (if w.statusVat = "Czynny" then 40 else 0) +
        (if w.accountNumbers.length > 0 then 20 else 0) := by
    intro w
    simp only [Org.calculateInitialTrustScore]
    split <;> split <;> split <;> omega
  have hbase : Org.calculateInitialTrustScore v = 90 := by
    rw [hscore v, hfound, hstatus, hacct]
    norm_num
  have heval : Org.verifyCompany (some v) now st nip =
      (Org.OrgOutcome.ok (Org.buildVerificationResponse nip 90 "LIVE_API"
          (some (Org.upsertCompanyData nip v 90 now st).1) []
          (Reports.getStatsForTarget st.reports nip)),
        (Org.upsertCompanyData nip v 90 now st).2, 1) := by
    simp only [Org.verifyCompany, hnip, Bool.true_eq_false, if_false, hcomp, hfound,
      hreps, ← hbase]
    simp [Reports.getStatsForTarget, sortByCreatedAtDesc]
    rw [hbase]
    norm_num
  rw [heval]
  exact ⟨hscore, rfl, rfl, rfl, rfl⟩

/-- C3 witness: the spec scenario made concrete, tax-id "7010301234" not
in the store, registry active with one bank account. -/
theorem c3_witness :
    Org.OrgOutcome.score?
      (Org.verifyCompany (some Samples.vatActive) 0 Samples.stateEmpty "7010301234").1 =
        some 90 ∧
    Org.OrgOutcome.risk?
      (Org.verifyCompany (some Samples.vatActive) 0 Samples.stateEmpty "7010301234").1 =
        some "Very Low" ∧
    Org.OrgOutcome.sourceTag?
      (Org.verifyCompany (some Samples.vatActive) 0 Samples.stateEmpty "7010301234").1 =
        some "LIVE_API" := by
  have h := c3_initial_score_and_fresh_scenario Samples.vatActive Samples.stateEmpty
    "7010301234" 0 (by decide) rfl rfl (by decide) (by decide) (by decide)
  exact ⟨h.2.1, h.2.2.1, h.2.2.2.1⟩


/-- Evaluation of `verifyCompany` when no cached row exists and the
registry reports not-found (a null payload or `found: false`): the call
throws `NotFoundException`, leaves the store unwritten, and has invoked
the registry once. -/
theorem verifyCompany_notFound_eval
    (reg : Option Org.VatData) (now : Int) (st : Org.OrgState) (nip : String)
    (hnip : isValidNip nip = true)
    (hcomp : st.company = none ∨
      ∃ c, st.company = some c ∧ Org.ONE_DAY_MS ≤ now - c.updatedAt)
    (hreg : reg = none ∨ ∃ v, reg = some v ∧ v.found = false) :
    Org.verifyCompany reg now st nip =
      (Org.OrgOutcome.notFound
          ("Company with NIP " ++ nip ++ " not found in VAT registry"), st, 1) := by
  rcases hcomp with hcomp | ⟨c, hcomp, hstale⟩ <;>
    rcases hreg with hreg | ⟨v, hreg, hv⟩
  · simp [Org.verifyCompany, hnip, hcomp, hreg]
  · simp [Org.verifyCompany, hnip, hcomp, hreg, hv]
  · simp [Org.verifyCompany, hnip, hcomp, hreg, decide_eq_false (not_lt.mpr hstale)]
  · simp [Org.verifyCompany, hnip, hcomp, hreg, hv,
      decide_eq_false (not_lt.mpr hstale)]

/-- C4 counterexample: tax-id "7010301234" with an empty store and a
registry not-found payload.  The claim predicts a well-formed score-0
result; the code instead throws (`notFound` outcome, no `ok` payload,
hence no score at all), and the controller surfaces it as a generic
internal error. -/
theorem c4_counterexample :
    (Org.verifyCompany (some Samples.vatNotFound) 0 Samples.stateEmpty "7010301234").1 =
      Org.OrgOutcome.notFound
        "Company with NIP 7010301234 not found in VAT registry" ∧
    Org.OrgOutcome.score?
      (Org.verifyCompany (some Samples.vatNotFound) 0 Samples.stateEmpty "7010301234").1 =
        none ∧
    Org.checkCompany (some Samples.vatNotFound) 0 Samples.stateEmpty "7010301234" =
      Org.HttpOutcome.internalError "Company verification failed" := by
  refine ⟨rfl, rfl, rfl⟩

/-- C4 amended: when the registry is consulted (no cached row, or a row
older than the freshness window) and it reports not-found,
`verifyCompany` throws a NotFoundException instead of returning a result
(so no score-0 payload is produced; the controller converts the error
into a generic 500), and no Organization record is written: the store
state is returned unchanged. -/
theorem c4_not_found_throws_without_write
    (reg : Option Org.VatData) (now : Int) (st : Org.OrgState) (nip : String)
    (hnip : isValidNip nip = true)
    (hcomp : st.company = none ∨
      ∃ c, st.company = some c ∧ Org.ONE_DAY_MS ≤ now - c.updatedAt)
    (hreg : reg = none ∨ ∃ v, reg = some v ∧ v.found = false) :
    Org.verifyCompany reg now st nip =
      (Org.OrgOutcome.notFound
          ("Company with NIP " ++ nip ++ " not found in VAT registry"), st, 1) ∧
    Org.OrgOutcome.score? (Org.verifyCompany reg now st nip).1 = none ∧
    (Org.verifyCompany reg now st nip).2.1 = st ∧
    Org.checkCompany reg now st nip =
      Org.HttpOutcome.internalError "Company verification failed" := by
  have h := verifyCompany_notFound_eval reg now st nip hnip hcomp hreg
  refine ⟨h, by rw [h]; rfl, by rw [h], ?_⟩
  simp only [Org.checkCompany, h]

/-- C4 witness: the amended behaviour at the concrete scenario input,
for both not-found shapes (null payload and `found: false`). -/
theorem c4_witness :
    (Org.verifyCompany (some Samples.vatNotFound) 0 Samples.stateEmpty "7010301234").2.1 =
      Samples.stateEmpty ∧
    (Org.verifyCompany none 0 Samples.stateEmpty "7010301234").1 =
      Org.OrgOutcome.notFound
        "Company with NIP 7010301234 not found in VAT registry" := by
  have h1 := c4_not_found_throws_without_write (some Samples.vatNotFound) 0
    Samples.stateEmpty "7010301234" (by decide) (Or.inl rfl)
    (Or.inr ⟨Samples.vatNotFound, rfl, rfl⟩)
  have h2 := c4_not_found_throws_without_write none 0
    Samples.stateEmpty "7010301234" (by decide) (Or.inl rfl) (Or.inl rfl)
  exact ⟨h1.2.2.1, by rw [h2.1]; rfl⟩



/-- C5: whenever the two fetch paths of the phone/person query can reach
a report with the same identity (a copy in the phone-linked list and a
copy with the same id in the person-linked list), the aggregated
evidence list contains exactly one report with that id, and it is the
first occurrence in the fetch-precedence concatenation (phone-linked
before person-linked); later duplicates are dropped, not merged. -/
theorem c5_dedup_keeps_first_occurrence
    (ps qs : List Report) (r r2 : Report)
    (hr : r ∈ ps) (hr2 : r2 ∈ qs) (hid : r2.id = r.id) :
    ∃ x, (ps ++ qs).find? (fun t => decide (t.id = r.id)) = some x ∧
      (Phone.mergeAndSortReports ps qs).filter (fun t => decide (t.id = r.id)) = [x] := by
  have hmem : r ∈ ps ++ qs := List.mem_append_left qs hr
  have hsome : ((ps ++ qs).find? (fun t => decide (t.id = r.id))).isSome :=
    List.find?_isSome.mpr ⟨r, hmem, by simp⟩
  obtain ⟨x, hx⟩ := Option.isSome_iff_exists.mp hsome
  refine ⟨x, hx, ?_⟩
  have hperm : List.Perm
      ((Phone.mergeAndSortReports ps qs).filter (fun t => decide (t.id = r.id)))
      ((dedupById (ps ++ qs)).filter (fun t => decide (t.id = r.id))) := by
    exact List.Perm.filter _ (sortByCreatedAtDesc_perm (dedupById (ps ++ qs)))
  rw [dedupById_filter_eq_find (ps ++ qs) r.id, hx] at hperm
  exact List.perm_singleton.mp hperm

/-- C5 witness: two copies of report id 7, one reachable through the
phone path and one through the person path; the aggregate keeps exactly
the phone-path copy. -/
theorem c5_witness :
    (Phone.mergeAndSortReports [Samples.dupReportPhoneCopy]
        [Samples.dupReportPersonCopy]).filter
      (fun t => decide (t.id = Samples.dupReportPhoneCopy.id)) =
      [Samples.dupReportPhoneCopy] := by
  obtain ⟨x, hfind, hfilter⟩ := c5_dedup_keeps_first_occurrence
    [Samples.dupReportPhoneCopy] [Samples.dupReportPersonCopy]
    Samples.dupReportPhoneCopy Samples.dupReportPersonCopy
    (List.mem_singleton.mpr rfl) (List.mem_singleton.mpr rfl) (by decide)
  have hx : x = Samples.dupReportPhoneCopy := by
    have : ([Samples.dupReportPhoneCopy] ++ [Samples.dupReportPersonCopy]).find?
        (fun t => decide (t.id = Samples.dupReportPhoneCopy.id)) =
        some Samples.dupReportPhoneCopy := by decide
    rw [this] at hfind
    exact (Option.some.inj hfind).symm
  rw [hx] at hfilter
  exact hfilter


/-- C6: evaluation of the organization evidence window at six reports
ordered newest-first (ids 6..1, creation times 6..1).  `slice(-5)` keeps
the LAST five entries of the newest-first list, i.e. the five OLDEST
reports: the newest report (id 6) is missing from `latestComments`, so
the window is not the most recent N — the code contradicts both the
spec and its own `latestComments` field name. -/
theorem c6_slice_keeps_oldest_five :
    (Org.mapReportComments Samples.sixEntriesDesc).map (fun cv => cv.id) =
      [5, 4, 3, 2, 1] ∧
    ((Org.mapReportComments Samples.sixEntriesDesc).map (fun cv => cv.id)).contains 6 =
      false ∧
    (Samples.sixEntriesDesc.take 5).map (fun r => r.id) = [6, 5, 4, 3, 2] := by
  refine ⟨by decide, by decide, by decide⟩

/-- C7 counterexample: number "+48600000000" has no stored phone row but
a negative report row points at it.  The claim predicts score 30 and
risk "Wysoki" (High); because the pipeline fetches reports only through
stored phone/person rows, the aggregate is empty and the code returns
score 50, risk "Brak danych" (No data), source "None". -/
theorem c7_counterexample :
    (Phone.checkPhone Samples.dbUnknownPhone Samples.libValidPhone
        "+48600000000").trustScore = 50 ∧
    (Phone.checkPhone Samples.dbUnknownPhone Samples.libValidPhone
        "+48600000000").riskLevel = "Brak danych" ∧
    (Phone.checkPhone Samples.dbUnknownPhone Samples.libValidPhone
        "+48600000000").source = "None" ∧
    (Phone.checkPhone Samples.dbUnknownPhone Samples.libValidPhone
        "+48600000000").trustScore ≠ 30 := by
  refine ⟨rfl, rfl, rfl, by decide⟩

/-- C7 amended: the no-prior-record branch of the trust calculator does
compute `50 - 20 * negativeCount` with risk "Wysoki" when
negativeCount > 0 (and "Brak danych" otherwise) — but in the `checkPhone`
pipeline reports are only reachable through stored phone/person rows, so
whenever neither row resolves the aggregated list is empty, negativeCount
is 0, and the response is always score 50 (the untouched default), risk
"Brak danych", source "None": the penalty branch is unreachable and the
claim's scenario returns 50, not 30. -/
theorem c7_no_prior_record_always_no_data
    (db : Phone.Db) (lib : Phone.PhoneLib) (raw : String)
    (hfetch : Phone.fetchDatabaseEntries db
        (Phone.parseAndValidatePhone raw lib).1
        (Phone.parseAndValidatePhone raw lib).2 = (none, none)) :
    (∀ allReports : List Report,
      Phone.calculateTrustMetrics allReports none none =
        (if 0 < (allReports.filter fun r => decide (r.rating ≤ 2)).length
         then (max (50 - ((allReports.filter fun r => decide (r.rating ≤ 2)).length : Int) * 20) 0,
               "Wysoki")
         else (50, "Brak danych"))) ∧
    Phone.checkPhone db lib raw =
      Phone.buildVerificationResponse (Phone.parseAndValidatePhone raw lib).1
        (Phone.parseAndValidatePhone raw lib).2 50 "Brak danych" none [] false := by
  constructor
  · intro allReports
    by_cases hn : 0 < (allReports.filter fun r => decide (r.rating ≤ 2)).length
    · simp [Phone.calculateTrustMetrics, hn]
    · norm_num [Phone.calculateTrustMetrics, hn]
  · simp only [Phone.checkPhone, hfetch]
    rfl

/-- C7 amended witness: the concrete unknown-phone store evaluated
through the amended statement. -/
theorem c7_amended_witness :
    Phone.checkPhone Samples.dbUnknownPhone Samples.libValidPhone "+48600000000" =
      Phone.buildVerificationResponse "+48600000000" true 50 "Brak danych" none
        [] false ∧
    Phone.calculateTrustMetrics [] none none = (50, "Brak danych") := by
  have h := c7_no_prior_record_always_no_data Samples.dbUnknownPhone
    Samples.libValidPhone "+48600000000" (by decide)
  refine ⟨?_, by rw [h.1 []]; decide⟩
  have h2 := h.2
  simpa using h2


/-- The phone/person trust calculator always floors its score at 0. -/
theorem calculateTrustMetrics_fst_nonneg (a : List Report)
    (p : Option Phone.PhoneNumberEntry) (q : Option Phone.PersonEntry) :
    0 ≤ (Phone.calculateTrustMetrics a p q).1 := by
  simp only [Phone.calculateTrustMetrics]
  exact le_max_right _ 0

/-- C8: every score returned by either verification operation is ≥ 0
(the floor is applied on both paths), and no ceiling is enforced: a
reachable stored state (an admin-edited company score of 150 inside the
freshness window) makes verify-organization return a score above 100. -/
theorem c8_score_floor_no_ceiling :
    (∀ (reg : Option Org.VatData) (now : Int) (st : Org.OrgState) (nip : String)
        (s : Int),
      Org.OrgOutcome.score? (Org.verifyCompany reg now st nip).1 = some s → 0 ≤ s) ∧
    (∀ (db : Phone.Db) (lib : Phone.PhoneLib) (raw : String),
      0 ≤ (Phone.checkPhone db lib raw).trustScore) ∧
    (∃ (reg : Option Org.VatData) (now : Int) (st : Org.OrgState) (nip : String)
        (s : Int),
      Org.OrgOutcome.score? (Org.verifyCompany reg now st nip).1 = some s ∧ 100 < s) := by
  refine ⟨?_, ?_, ?_⟩
  · intro reg now st nip s h
    simp only [Org.verifyCompany] at h
    split at h
    · simp [Org.OrgOutcome.score?] at h
    · split at h
      · simp [Org.OrgOutcome.score?] at h
      · simp only [Org.OrgOutcome.score?, Org.buildVerificationResponse,
          Option.some.injEq] at h
        rw [← h]
        exact le_max_left 0 _
  · intro db lib raw
    simp only [Phone.checkPhone, Phone.buildVerificationResponse]
    exact calculateTrustMetrics_fst_nonneg _ _ _
  · exact ⟨none, 50, Samples.stateScore150, "1234567890", 150, by decide, by decide⟩

/-- C8 witness: the floor conjuncts instantiated at concrete calls. -/
theorem c8_witness :
    Org.OrgOutcome.score?
      (Org.verifyCompany none 100 Samples.stateFresh "1234567890").1 = some 80 ∧
    (0 : Int) ≤ 80 ∧
    0 ≤ (Phone.checkPhone Samples.dbUnknownPhone Samples.libValidPhone
          "+48600000000").trustScore := by
  refine ⟨by decide, ?_, ?_⟩
  · exact c8_score_floor_no_ceiling.1 none 100 Samples.stateFresh "1234567890" 80
      (by decide)
  · exact c8_score_floor_no_ceiling.2.1 Samples.dbUnknownPhone Samples.libValidPhone
      "+48600000000"


/-- C9: identifier normalization never raises to the caller: whenever
the inner parse/validation body throws (letters in the input, a parse
failure, or a number failing numbering-plan validation — including
phone-like all-digit strings), the catch handler degrades the query to
the free-text-name classification with the original input retained, and
the pipeline then runs with that query and isPhone = false. -/
theorem c9_parse_failure_degrades_to_name
    (raw : String) (lib : Phone.PhoneLib) (msg : String) (db : Phone.Db)
    (herr : Phone.parseAttempt raw lib = Except.error msg) :
    Phone.parseAndValidatePhone raw lib = (raw, false) ∧
    (Phone.checkPhone db lib raw).query = raw ∧
    (Phone.checkPhone db lib raw).isPhone = false := by
  have h1 : Phone.parseAndValidatePhone raw lib = (raw, false) := by
    simp [Phone.parseAndValidatePhone, herr]
  refine ⟨h1, ?_, ?_⟩ <;>
    simp [Phone.checkPhone, h1, Phone.buildVerificationResponse]

/-- C9 witness: the all-digit string "600600600" whose parse succeeds
but whose numbering-plan validation fails degrades to a name query. -/
theorem c9_witness :
    Phone.parseAttempt "600600600" Samples.libInvalidPhone =
      Except.error "Phone number validation failed" ∧
    Phone.parseAndValidatePhone "600600600" Samples.libInvalidPhone =
      ("600600600", false) ∧
    (Phone.checkPhone Samples.dbUnknownPhone Samples.libInvalidPhone
        "600600600").isPhone = false := by
  have h := c9_parse_failure_degrades_to_name "600600600" Samples.libInvalidPhone
    "Phone number validation failed" Samples.dbUnknownPhone (by rfl)
  exact ⟨by rfl, h.1, h.2.2⟩


/-- C10: for report creation with target type PHONE or PERSON, the phone
upsert creates the row (country code PL, default trust score 50, schema
default risk) only when no row with that number exists; when a row
exists, the update is empty, so the stored phone rows — trust score,
risk level and every other field — are unchanged. -/
theorem c10_create_report_phone_upsert_frame
    (db : Phone.Db) (dto : Reports.CreateReportDto)
    (userId newId : Nat) (ip : String) (now : Int)
    (htype : dto.targetType = "PHONE" ∨ dto.targetType = "PERSON") :
    ((∃ p, p ∈ db.phoneRows ∧ p.number = dto.targetValue) →
      Reports.resultPhoneRows?
          (Reports.create db dto userId ip newId now) = some db.phoneRows) ∧
    ((∀ p, p ∈ db.phoneRows → p.number ≠ dto.targetValue) →
      Reports.resultPhoneRows?
          (Reports.create db dto userId ip newId now) =
        some (db.phoneRows ++
          [{ number := dto.targetValue, countryCode := "PL", trustScore := 50,
             riskLevel := Reports.DEFAULT_PHONE_RISK, companyNip := none }])) := by
  have hne : ¬ dto.targetType = "NIP" := by
    rcases htype with h | h <;> simp [h]
  constructor
  · rintro ⟨p, hp, hnum⟩
    have hsome : (db.phoneRows.find? fun q => decide (q.number = dto.targetValue)).isSome :=
      List.find?_isSome.mpr ⟨p, hp, by simp [hnum]⟩
    obtain ⟨y, hy⟩ := Option.isSome_iff_exists.mp hsome
    have hup : Reports.upsertPhoneRowForReport db.phoneRows dto.targetValue =
        db.phoneRows := by
      simp only [Reports.upsertPhoneRowForReport]
      rw [hy]
    simp only [Reports.create, if_neg hne, if_pos htype, hup,
      Reports.resultPhoneRows?]
  · intro habs
    have hnone : (db.phoneRows.find? fun q => decide (q.number = dto.targetValue)) =
        none :=
      List.find?_eq_none.mpr fun p hp => by simp [habs p hp]
    have hup : Reports.upsertPhoneRowForReport db.phoneRows dto.targetValue =
        db.phoneRows ++
          [{ number := dto.targetValue, countryCode := "PL", trustScore := 50,
             riskLevel := Reports.DEFAULT_PHONE_RISK, companyNip := none }] := by
      simp only [Reports.upsertPhoneRowForReport]
      rw [hnone]
    simp only [Reports.create, if_neg hne, if_pos htype, hup,
      Reports.resultPhoneRows?]

/-- C10 witness: a store holding one phone row with trust score 70; a
PHONE-target report against that number leaves the row list unchanged,
while a PERSON-target report against an unseen number appends the
default row with trust score 50. -/
theorem c10_witness :
    Reports.resultPhoneRows?
        (Reports.create Samples.dbOnePhone Samples.dtoPhoneExisting 1 "127.0.0.1" 10 0) =
      some [Samples.phoneRow70] ∧
    Reports.resultPhoneRows?
        (Reports.create Samples.dbOnePhone Samples.dtoPhoneNew 1 "127.0.0.1" 11 0) =
      some [Samples.phoneRow70,
        { number := "+48999888777", countryCode := "PL", trustScore := 50,
          riskLevel := Reports.DEFAULT_PHONE_RISK, companyNip := none }] := by
  have h1 := (c10_create_report_phone_upsert_frame Samples.dbOnePhone
      Samples.dtoPhoneExisting 1 10 "127.0.0.1" 0 (Or.inl rfl)).1
    ⟨Samples.phoneRow70, by decide, by decide⟩
  have h2 := (c10_create_report_phone_upsert_frame Samples.dbOnePhone
      Samples.dtoPhoneNew 1 11 "127.0.0.1" 0 (Or.inr rfl)).2
    (by decide)
  refine ⟨?_, ?_⟩
  · exact h1
  · exact h2

end TrustCheck
